import Mathlib

/-!
# Verification of the KortekStream client resilience layer

Shallow embedding of the `KortekStreamAPI` class
(`src/unnamed/part_006`, lines 7-1353): circuit breaker fields,
two-tier cache accessors, request queue, response validation and the
`loadContent` orchestration path, together with theorems checking the
specification's claims about them.

Conventions of the embedding:
* JS `Map.set` / `Storage.setItem` are modelled by prepending to an
  association list that is read by first match, which is observationally
  the same replace-semantics (last write shadows earlier ones).
* Stored strings are modelled by `StoredVal`: a well-formed serialized
  entry, a malformed string (`JSON.parse` throws on it), or the empty
  string (falsy in JS).
* A storage tier whose API throws (security error / quota) is a `BStore`
  with `faulty = true`; its `getItem`/`setItem` return `Except.error`.
* JS numbers appearing in the validation logic (`confidence_score`,
  threshold `0.3`) are modelled as rationals; the comparisons performed
  are exact at these values.
* Time is a `Nat` millisecond clock carried in the state (`now`).
-/

namespace KortekStream

/-- First-match lookup in an association list (models `Map.get` /
`Storage.getItem` over a store where writes prepend). -/
def find {α : Type} (m : List (String × α)) (k : String) : Option α :=
  match m with
  | [] => none
  | (k', v) :: rest => if k' = k then some v else find rest k

/-- Tests whether `pat` begins the character list. -/
def charStarts : List Char → List Char → Bool
  | [], _ => true
  | _ :: _, [] => false
  | p :: ps, c :: cs => (p = c) && charStarts ps cs

/-- Tests whether `pat` occurs somewhere in the character list. -/
def charOccurs (pat : List Char) : List Char → Bool
  | [] => charStarts pat []
  | c :: cs => charStarts pat (c :: cs) || charOccurs pat cs

/-- JS `String.prototype.includes`: `pat` occurs as a substring of `s`. -/
def containsSub (s pat : String) : Bool :=
  charOccurs pat.data s.data

/-- The shape of a parsed JSON object as inspected by
`isValidAPIResponse`: truthiness of `.error` and `.data`, the `.success`
field (possibly absent), the `.html` string (possibly absent), and the
optional `confidence_score`. -/
structure ApiJson where
  errorField : Bool
  successField : Option Bool
  dataField : Bool
  htmlField : Option String
  confidenceScore : Option ℚ
deriving Repr, DecidableEq

/-- JS truthiness of an optional string field (`undefined` and `""` are
falsy). -/
def htmlTruthy : Option String → Bool
  | some s => !s.isEmpty
  | none => false

/-- Validation predicate `isValidAPIResponse` (part_006 lines 913-926): rejects an explicit
error envelope with no usable `data`/`html`, a `success === false`
envelope with no usable `data`/`html`, and any body whose
`confidence_score` is present and below `0.3`. -/
def isValidAPIResponse (d : ApiJson) : Bool :=
  if d.errorField && !d.dataField && !(htmlTruthy d.htmlField) then false
  else if d.successField == some false && !(htmlTruthy d.htmlField) && !d.dataField then false
  else if (match d.confidenceScore with
           | some c => decide (c < 3/10)
           | none => false) then false
  else true

/-- Result of `JSON.parse` on a response body: either a JSON object
(with the fields above) or not an object / a parse failure, both of
which the code treats alike. -/
inductive Body where
  | obj (j : ApiJson)
  | notObj
deriving Repr, DecidableEq

/-- The `parsedData` value computed by `loadContent` lines 474-484: a
valid JSON object is kept structured; an invalid object (the validation
throw is swallowed by the surrounding catch) or a non-JSON body becomes
`{ html: content }`. -/
inductive ParsedData where
  | json (j : ApiJson)
  | htmlOnly (raw : String)
deriving Repr, DecidableEq

def parseResponseBody (text : String) (shape : Body) : ParsedData :=
  match shape with
  | Body.obj j => if isValidAPIResponse j then ParsedData.json j else ParsedData.htmlOnly text
  | Body.notObj => ParsedData.htmlOnly text

/-- Computes `parsedData.html || content` (used for the cached `html` field). -/
def parsedHtml (p : ParsedData) (text : String) : String :=
  match p with
  | ParsedData.json j =>
      match j.htmlField with
      | some s => if s.isEmpty then text else s
      | none => text
  | ParsedData.htmlOnly raw => raw

/-- A cache entry as written by `loadContent` lines 487-502 (and by the
background refresh, which omits the validators). -/
structure CacheEntry where
  content : ParsedData
  timestamp : Nat
  html : String
  etag : Option String := none
  lastModified : Option String := none
deriving Repr, DecidableEq

/-- What a browser-storage slot can hold. -/
inductive StoredVal where
  | entry (e : CacheEntry)
  | malformed (s : String)
  | emptyStr
deriving Repr, DecidableEq

/-- Models `JSON.parse` on a stored string. -/
def parseStored : StoredVal → Except String CacheEntry
  | StoredVal.entry e => Except.ok e
  | StoredVal.malformed s => Except.error s
  | StoredVal.emptyStr => Except.error "unexpected end of JSON input"

/-- One browser storage tier; `faulty = true` models a storage API that
throws on every access. -/
structure BStore where
  items : List (String × StoredVal)
  faulty : Bool
deriving Repr, DecidableEq

def BStore.getItem (st : BStore) (k : String) : Except String (Option StoredVal) :=
  if st.faulty then Except.error "storage access denied" else Except.ok (find st.items k)

def BStore.setItem (st : BStore) (k : String) (v : StoredVal) : Except String BStore :=
  if st.faulty then Except.error "quota exceeded"
  else Except.ok { st with items := (k, v) :: st.items }

/-- Request priority (`element.dataset.priority`, default `normal`). -/
inductive Priority where
  | high
  | normal
  | low
deriving Repr, DecidableEq

/-- The data of an element-bound load intent (`data-content-url`,
`data-content-type`, `data-priority`). -/
structure LoadRequest where
  url : String
  contentType : String
  priority : Priority
deriving Repr, DecidableEq

/-- Cache key as computed at part_006 line 363. -/
def cacheKey (req : LoadRequest) : String :=
  req.contentType ++ "-" ++ req.url

/-- The data fields of an object pushed onto `requestQueue`
(part_006 lines 413-420); the resolution closures are omitted.
`priorityNum` is `0` for `low` and `1` otherwise, exactly as stored. -/
structure QueuedRequest where
  url : String
  qCacheKey : String
  forceRefresh : Bool
  priorityNum : Nat
  timestamp : Nat
deriving Repr, DecidableEq

/-- A user-visible DOM effect performed by the loader. -/
inductive RenderEvent where
  | freshContent (key : String) (p : ParsedData)
  | cachedContent (key : String) (e : CacheEntry) (isOffline : Bool)
  | staleContent (key : String) (e : CacheEntry) (indicator : Bool)
  | loadingSkeleton (key : String)
  | offlineMessage (key : String)
  | circuitBreakerMessage (key : String)
  | errorState (key : String)
deriving Repr, DecidableEq

/-- A JS error value: its `name` and `message` as inspected by
`handleLoadError` (`AbortError` for a timeout abort, a message
containing `network` for a network-level failure). -/
structure JsError where
  name : String
  message : String
deriving Repr, DecidableEq

/-- HTTP response as consumed by `loadContent`: status, `statusText`
(used in the thrown `HTTP <status>: <statusText>` message), body text,
its JSON shape, and the two validator headers. -/
structure HttpResponse where
  status : Nat
  statusText : String
  text : String
  shape : Body
  etag : Option String := none
  lastModified : Option String := none
deriving Repr, DecidableEq

/-- Models `response.ok`: status in the 2xx range. -/
def httpOk (status : Nat) : Bool :=
  decide (200 ≤ status) && decide (status < 300)

/-- Outcome of the `fetch` call issued by a load attempt: the promise
rejects (network error / abort) or resolves with a response. -/
inductive FetchOracle where
  | reject (e : JsError)
  | response (r : HttpResponse)
deriving Repr, DecidableEq

/-- Constructor constants (part_006 lines 8-30). -/
def circuitBreakerThreshold : Nat := 8
def circuitBreakerResetTime : Nat := 30000
def maxRetries : Nat := 5
def maxConcurrentRequests : Nat := 8
def retryDelay : Nat := 1000

/-- The mutable fields of the singleton `KortekStreamAPI` instance that
the claims concern, plus a `dom` log of user-visible renders and a
millisecond clock. -/
structure APIState where
  apiHealthy : Bool
  consecutiveFailures : Nat
  offlineMode : Bool
  networkStatus : Bool
  staleContentCache : List (String × CacheEntry)
  sessionStorageEnabled : Bool
  localStorageEnabled : Bool
  session : BStore
  localStore : BStore
  concurrentRequests : Nat
  requestQueue : List QueuedRequest
  dom : List RenderEvent
  now : Nat
deriving Repr, DecidableEq

/-- Read one storage tier inside the try-block of `getFromBrowserCache`:
a disabled tier is skipped, a faulting read or malformed stored JSON
throws, an absent or empty (falsy) string is a miss. -/
def readTier (enabled : Bool) (st : BStore) (k : String) :
    Except String (Option CacheEntry) :=
  if enabled then
    match st.getItem k with
    | Except.error e => Except.error e
    | Except.ok none => Except.ok none
    | Except.ok (some sv) =>
        if sv = StoredVal.emptyStr then Except.ok none
        else
          match parseStored sv with
          | Except.error e => Except.error e
          | Except.ok ent => Except.ok (some ent)
  else Except.ok none

/-- The try-block body of `getFromBrowserCache` (part_006 lines
574-596): sessionStorage first, then localStorage. -/
def getFromBrowserCacheE (s : APIState) (key : String) :
    Except String (Option CacheEntry) :=
  match readTier s.sessionStorageEnabled s.session ("content_" ++ key) with
  | Except.error e => Except.error e
  | Except.ok (some ent) => Except.ok (some ent)
  | Except.ok none => readTier s.localStorageEnabled s.localStore ("content_" ++ key)

/-- Accessor `getFromBrowserCache`: the catch converts any storage/parse throw
into a `null` result. -/
def getFromBrowserCache (s : APIState) (key : String) : Option CacheEntry :=
  match getFromBrowserCacheE s key with
  | Except.error _ => none
  | Except.ok r => r

/-- Whether `cacheKey` names "important" content persisted to
localStorage (part_006 line 609). -/
def isImportantKey (key : String) : Bool :=
  containsSub key "home" || containsSub key "detail"

/-- Accessor `saveToLocalCache` (part_006 lines 601-615) acting on the two
storage tiers: sessionStorage write first, then (for important keys)
the localStorage write; the catch stops at the first faulting write and
keeps the effects already performed. Returns the updated
(session, localStorage) pair. -/
def saveToLocalCacheStores (s : APIState) (key : String) (data : CacheEntry) :
    BStore × BStore :=
  let k := "content_" ++ key
  if s.sessionStorageEnabled then
    match s.session.setItem k (StoredVal.entry data) with
    | Except.error _ => (s.session, s.localStore)
    | Except.ok sess' =>
        if s.localStorageEnabled && isImportantKey key then
          match s.localStore.setItem k (StoredVal.entry data) with
          | Except.error _ => (sess', s.localStore)
          | Except.ok loc' => (sess', loc')
        else (sess', s.localStore)
  else
    if s.localStorageEnabled && isImportantKey key then
      match s.localStore.setItem k (StoredVal.entry data) with
      | Except.error _ => (s.session, s.localStore)
      | Except.ok loc' => (s.session, loc')
    else (s.session, s.localStore)

/-- Applies `saveToLocalCache` as a state update. -/
def applySave (s : APIState) (key : String) (data : CacheEntry) : APIState :=
  let p := saveToLocalCacheStores s key data
  { s with session := p.1, localStore := p.2 }

/-- Models `staleContentCache.set` (JS `Map.set`, modelled by a shadowing
prepend). -/
def staleCacheSet (m : List (String × CacheEntry)) (k : String) (e : CacheEntry) :
    List (String × CacheEntry) :=
  (k, e) :: m

/-- Predicate `shouldUseBrowserCache` (part_006 lines 554-569): some tier enabled,
an entry present, and its age under 5 minutes. -/
def shouldUseBrowserCache (s : APIState) (key : String) : Bool :=
  if !s.localStorageEnabled && !s.sessionStorageEnabled then false
  else
    match getFromBrowserCache s key with
    | none => false
    | some cd => decide (s.now - cd.timestamp < 5 * 60 * 1000)

/-- Predicate `shouldRefreshInBackground` (part_006 lines 634-643): missing or
falsy (zero) timestamp forces a refresh; otherwise age above 2 minutes. -/
def shouldRefreshInBackground (s : APIState) (cd : CacheEntry) : Bool :=
  if cd.timestamp = 0 then true
  else decide (s.now - cd.timestamp > 2 * 60 * 1000)

/-- Accessor `getStaleContent` (part_006 lines 620-629): memory cache first, then
browser storage. -/
def getStaleContent (s : APIState) (key : String) : Option CacheEntry :=
  match find s.staleContentCache key with
  | some e => some e
  | none => getFromBrowserCache s key

/-- The callback of `scheduleCircuitBreakerReset` (part_006 lines
992-998), fired `circuitBreakerResetTime` after the breaker opened:
full reset, no half-open phase. -/
def circuitBreakerResetFire (s : APIState) : APIState :=
  { s with apiHealthy := true, consecutiveFailures := 0 }

/-- Breaker-related state as observed at time `t` when the breaker
opened at `openedAt` (the only scheduled event being the reset timer). -/
def breakerStateAt (sOpen : APIState) (openedAt t : Nat) : APIState :=
  if t < openedAt + circuitBreakerResetTime then sOpen
  else circuitBreakerResetFire sOpen

/-- Fallback `handleCircuitBreakerOpen` (part_006 lines 978-987): render stale
from the memory cache when present, otherwise the unavailable message.
No network access. -/
def handleCircuitBreakerOpen (s : APIState) (key : String) : APIState :=
  match find s.staleContentCache key with
  | some e => { s with dom := s.dom ++ [RenderEvent.staleContent key e true] }
  | none => { s with dom := s.dom ++ [RenderEvent.circuitBreakerMessage key] }

/-- Fallback `handleOfflineMode` (part_006 lines 712-720). -/
def handleOfflineMode (s : APIState) (key : String) : APIState :=
  match getStaleContent s key with
  | some e => { s with dom := s.dom ++ [RenderEvent.cachedContent key e true] }
  | none => { s with dom := s.dom ++ [RenderEvent.offlineMessage key] }

/-- Terminal outcome of `handleLoadError`. -/
inductive ErrOutcome where
  | staleShortcut
  | retryScheduled (baseDelay : Nat)
  | fallbackStale
  | fallbackError
deriving Repr, DecidableEq

/-- Whether the error takes the timeout/network stale shortcut test
(part_006 line 940). -/
def transientName (err : JsError) : Bool :=
  err.name == "AbortError" || containsSub err.message "network"

/-- The stale render performed on the error paths (`renderStaleContent`
with the stale indicator on the `staleContentCache.get` result). -/
def staleDomEvents (s : APIState) (key : String) : List RenderEvent :=
  match find s.staleContentCache key with
  | some e => [RenderEvent.staleContent key e true]
  | none => []

/-- Error path `handleLoadError` (part_006 lines 931-973). Increments
`consecutiveFailures`; a timeout/network error with a memory-cached
stale entry renders it and returns early (the breaker branch is never
reached); otherwise a retry is scheduled while both the retry budget and
the failure count are under their bounds, else the stale/error fallback
is rendered and the breaker opens when the failure count has reached the
threshold. -/
def handleLoadError (s : APIState) (err : JsError) (retries : Nat) (key : String) :
    APIState × ErrOutcome :=
  let s1 := { s with consecutiveFailures := s.consecutiveFailures + 1 }
  if transientName err = true ∧ (find s1.staleContentCache key).isSome = true then
    ({ s1 with dom := s1.dom ++ staleDomEvents s1 key }, ErrOutcome.staleShortcut)
  else if retries < maxRetries ∧ s1.consecutiveFailures < circuitBreakerThreshold then
    (s1, ErrOutcome.retryScheduled (retryDelay * 2 ^ retries))
  else
    let p : APIState × ErrOutcome :=
      if (find s1.staleContentCache key).isSome = true then
        ({ s1 with dom := s1.dom ++ staleDomEvents s1 key }, ErrOutcome.fallbackStale)
      else
        ({ s1 with dom := s1.dom ++ [RenderEvent.errorState key] }, ErrOutcome.fallbackError)
    if circuitBreakerThreshold ≤ p.1.consecutiveFailures then
      ({ p.1 with apiHealthy := false }, p.2)
    else p

/-- Revalidation `refreshContentInBackground` (part_006 lines 648-707): guarded by
offline mode and breaker health; on a 2xx response the parsed body is
written to the memory cache and the browser tiers; every failure is
only logged. -/
def refreshContentInBackground (s : APIState) (key : String) (res : FetchOracle) :
    APIState :=
  if s.offlineMode ∨ s.apiHealthy = false then s
  else
    match res with
    | FetchOracle.reject _ => s
    | FetchOracle.response r =>
        if httpOk r.status then
          let parsed := parseResponseBody r.text r.shape
          let entry : CacheEntry :=
            { content := parsed, timestamp := s.now, html := parsedHtml parsed r.text }
          let p := saveToLocalCacheStores s key entry
          { s with staleContentCache := staleCacheSet s.staleContentCache key entry,
                   session := p.1, localStore := p.2 }
        else s

/-- The success tail of `loadContent` (part_006 lines 471-516): parse
and validate the body (an invalid body is downgraded to `{html}` by the
swallowed throw), write the entry through to the memory cache and the
browser tiers, render, and reset the breaker bookkeeping. -/
def processSuccess (s : APIState) (req : LoadRequest) (r : HttpResponse) : APIState :=
  let key := cacheKey req
  let parsed := parseResponseBody r.text r.shape
  let entry : CacheEntry :=
    { content := parsed, timestamp := s.now, html := parsedHtml parsed r.text,
      etag := r.etag, lastModified := r.lastModified }
  let p := saveToLocalCacheStores s key entry
  { s with staleContentCache := staleCacheSet s.staleContentCache key entry,
           session := p.1, localStore := p.2,
           dom := s.dom ++ [RenderEvent.freshContent key parsed],
           consecutiveFailures := 0, apiHealthy := true }

/-- Classified outcome of one synchronous `loadContent` invocation. -/
inductive LoadOutcome where
  | noUrl
  | circuitOpen
  | offline
  | servedFresh (e : CacheEntry) (bgFetch : Bool)
  | queued
  | success (p : ParsedData)
  | failed (o : ErrOutcome)
deriving Repr, DecidableEq

/-- How many network requests the outcome initiates (a background
revalidation fetch counts). -/
def networkAttemptsOfOutcome : LoadOutcome → Nat
  | LoadOutcome.servedFresh _ bg => if bg then 1 else 0
  | LoadOutcome.success _ => 1
  | LoadOutcome.failed _ => 1
  | _ => 0

/-- One `loadContent` invocation (part_006 lines 359-526), with the
result of the (at most one) foreground `fetch` supplied by `oracle`.
Mirrors the source order: missing url, circuit breaker check, offline
check, fresh-browser-cache check (with background refresh trigger),
stale pre-render / skeleton, concurrency queueing, then the fetch with
its success and error paths. The counter double-decrement on a non-2xx
response (decrement at line 459 followed by the guarded decrement at
line 520) is reproduced. -/
def loadContentStep (s : APIState) (req : LoadRequest) (retries : Nat)
    (forceRefresh : Bool) (oracle : FetchOracle) : APIState × LoadOutcome :=
  let key := cacheKey req
  if req.url.isEmpty then (s, LoadOutcome.noUrl)
  else if s.apiHealthy = false ∧ circuitBreakerThreshold ≤ s.consecutiveFailures then
    (handleCircuitBreakerOpen s key, LoadOutcome.circuitOpen)
  else if s.offlineMode then
    (handleOfflineMode s key, LoadOutcome.offline)
  else
    match (if !forceRefresh && shouldUseBrowserCache s key
           then getFromBrowserCache s key else none) with
    | some cd =>
        let doBg := shouldRefreshInBackground s cd && !s.offlineMode && s.apiHealthy
        ({ s with dom := s.dom ++ [RenderEvent.cachedContent key cd false] },
         LoadOutcome.servedFresh cd doBg)
    | none =>
        let preRender : RenderEvent :=
          if forceRefresh then RenderEvent.loadingSkeleton key
          else
            match getStaleContent s key with
            | some e =>
                if retries = 0 then RenderEvent.staleContent key e false
                else RenderEvent.loadingSkeleton key
            | none => RenderEvent.loadingSkeleton key
        let s1 := { s with dom := s.dom ++ [preRender] }
        if maxConcurrentRequests ≤ s1.concurrentRequests ∧ req.priority ≠ Priority.high then
          ({ s1 with requestQueue := s1.requestQueue ++
               [{ url := req.url, qCacheKey := key, forceRefresh := forceRefresh,
                  priorityNum := if req.priority = Priority.low then 0 else 1,
                  timestamp := s1.now }] },
           LoadOutcome.queued)
        else
          let s2 := { s1 with concurrentRequests := s1.concurrentRequests + 1 }
          match oracle with
          | FetchOracle.reject e =>
              let s3 := { s2 with concurrentRequests := s2.concurrentRequests - 1 }
              let p := handleLoadError s3 e retries key
              (p.1, LoadOutcome.failed p.2)
          | FetchOracle.response r =>
              let s3 := { s2 with concurrentRequests := s2.concurrentRequests - 1 }
              if httpOk r.status then
                (processSuccess s3 req r,
                 LoadOutcome.success (parseResponseBody r.text r.shape))
              else
                let s4 :=
                  if 0 < s3.concurrentRequests then
                    { s3 with concurrentRequests := s3.concurrentRequests - 1 }
                  else s3
                let httpErr : JsError :=
                  { name := "Error",
                    message := "HTTP " ++ toString r.status ++ ": " ++ r.statusText }
                let p := handleLoadError s4 httpErr retries key
                (p.1, LoadOutcome.failed p.2)

/-- The methods defined on the `KortekStreamAPI` class (part_006 lines
7-1353), i.e. the names on which dynamic dispatch through `this`
succeeds. -/
def definedMethods : List String :=
  ["checkLocalStorageAvailable", "checkSessionStorageAvailable",
   "checkIndexedDBAvailable", "init", "initNetworkMonitoring",
   "initOfflineSupport", "processRequestQueue", "refreshStaleContent",
   "initLoadingStates", "addLoadingState", "createSkeletonLoader",
   "generateSkeletonElements", "removeLoadingState", "initProgressiveLoading",
   "setupProgressiveLoading", "getLoadingDelay", "loadContent",
   "getClientVersion", "trackContentRequest", "shouldUseBrowserCache",
   "getFromBrowserCache", "saveToLocalCache", "getStaleContent",
   "shouldRefreshInBackground", "refreshContentInBackground",
   "handleOfflineMode", "renderCachedContent", "addOfflineIndicator",
   "addCacheAgeIndicator", "showOfflineMessage", "showToast",
   "isValidAPIResponse", "handleLoadError", "handleCircuitBreakerOpen",
   "scheduleCircuitBreakerReset", "renderStaleContent", "addStaleIndicator",
   "renderContent", "generateContentHTML", "generateAnimeGrid",
   "generateEpisodeList", "generateRecommendationList",
   "showCircuitBreakerMessage", "forceRetry", "showLoadingError",
   "retryLoading", "initializeNewContent", "checkAPIStatus",
   "updateStatusIndicator"]

/-- Outcome of one `processRequestQueue` pass. -/
inductive QueueStepOutcome where
  | idle
  | dispatched (reqs : List QueuedRequest)
  | thrownTypeError (method : String)
deriving Repr, DecidableEq

/-- Queue pass `processRequestQueue` (part_006 lines 156-175): returns early when
the queue is empty, the network is down, or the breaker is unhealthy;
otherwise shifts up to three requests and dispatches each through
`this.executeRequest(...)`. That method is not defined on the class, so
the first dispatch throws a `TypeError` after the first shift; were it
defined, the first `min 3 n` queued requests would be dispatched in
queue order. -/
def processRequestQueue (s : APIState) : APIState × QueueStepOutcome :=
  if s.requestQueue.isEmpty || !s.networkStatus || !s.apiHealthy then
    (s, QueueStepOutcome.idle)
  else if definedMethods.contains "executeRequest" then
    let n := min 3 s.requestQueue.length
    ({ s with requestQueue := s.requestQueue.drop n },
     QueueStepOutcome.dispatched (s.requestQueue.take n))
  else
    ({ s with requestQueue := s.requestQueue.drop 1 },
     QueueStepOutcome.thrownTypeError "executeRequest")

/-! ## Concrete fixtures used by witnesses and counterexamples -/

/-- An empty, healthy storage tier. -/
def cleanStore : BStore := { items := [], faulty := false }

/-- A storage tier whose API throws on every access. -/
def faultyStore : BStore := { items := [], faulty := true }

/-- A baseline state: breaker closed, online, empty caches and queue. -/
def baseState : APIState :=
  { apiHealthy := true, consecutiveFailures := 0, offlineMode := false,
    networkStatus := true, staleContentCache := [],
    sessionStorageEnabled := true, localStorageEnabled := true,
    session := cleanStore, localStore := cleanStore,
    concurrentRequests := 0, requestQueue := [], dom := [],
    now := 1000000 }

/-- A cached entry fetched at clock 1000. -/
def oldEntry : CacheEntry :=
  { content := ParsedData.htmlOnly "<div>old</div>", timestamp := 1000,
    html := "<div>old</div>" }

/-- A normal-priority load intent for an episode listing. -/
def reqEpisode : LoadRequest :=
  { url := "/api/episode/7", contentType := "episode", priority := Priority.normal }

/-- A normal-priority load intent for home content (its cache key
contains `home`, so the durable tier is written). -/
def reqHome : LoadRequest :=
  { url := "/api/home", contentType := "home", priority := Priority.normal }

/-- A JSON error envelope with no usable `data`/`html`. -/
def errEnvelope : ApiJson :=
  { errorField := true, successField := none, dataField := false,
    htmlField := none, confidenceScore := none }

/-- An HTTP 200 response whose JSON body is the error envelope. -/
def invalidOkResponse : HttpResponse :=
  { status := 200, statusText := "OK",
    text := "\x7b\"error\": \"upstream scrape failed\"\x7d",
    shape := Body.obj errEnvelope }

/-- An HTTP 404 response (non-retryable per the spec). -/
def notFoundResponse : HttpResponse :=
  { status := 404, statusText := "Not Found", text := "gone",
    shape := Body.notObj }

/-- The abort error raised when a request timeout fires. -/
def abortErr : JsError := { name := "AbortError", message := "The operation was aborted." }

/-- The error thrown by `loadContent` for a 404 response. -/
def notFoundErr : JsError := { name := "Error", message := "HTTP 404: Not Found" }

/-- State with the breaker open (threshold reached, marked unhealthy). -/
def openState : APIState :=
  { baseState with apiHealthy := false, consecutiveFailures := 8 }

/-- State one failure below the threshold, with a stale memory-cache
entry for the episode key. -/
def sevenFailState : APIState :=
  { baseState with
      consecutiveFailures := 7,
      staleContentCache := [(cacheKey reqEpisode, oldEntry)] }

/-- State with all eight concurrency slots occupied. -/
def atLimitState : APIState := { baseState with concurrentRequests := 8 }

/-- The episode request at high priority. -/
def reqHighP : LoadRequest := { reqEpisode with priority := Priority.high }

/-- A JSON body whose confidence score is below the 0.3 threshold. -/
def lowConfidenceJson : ApiJson :=
  { errorField := false, successField := none, dataField := true,
    htmlField := none, confidenceScore := some (1/10) }

/-- State whose sessionStorage is unavailable (constructor probe
failed), leaving localStorage as the only browser tier. -/
def noSessionState : APIState := { baseState with sessionStorageEnabled := false }

/-- Two distinct entries for the last-write-wins checks. -/
def e1Entry : CacheEntry := { content := ParsedData.htmlOnly "a", timestamp := 1, html := "a" }
def e2Entry : CacheEntry := { content := ParsedData.htmlOnly "b", timestamp := 2, html := "b" }

/-- An entry three minutes old at `baseState.now` (fresh for the 5-min
reuse window, past the 2-min background-refresh window). -/
def agingEntry : CacheEntry :=
  { content := ParsedData.htmlOnly "c", timestamp := 820000, html := "c" }

/-- An entry one minute old at `baseState.now`. -/
def youngEntry : CacheEntry :=
  { content := ParsedData.htmlOnly "c", timestamp := 940000, html := "c" }

/-- State `baseState` with `e` stored in sessionStorage under the episode key. -/
def withSessionEntry (e : CacheEntry) : APIState :=
  { baseState with
    session := { items := [("content_" ++ cacheKey reqEpisode, StoredVal.entry e)],
                 faulty := false } }

/-- A queued request (data fields of the object pushed at lines 413-420). -/
def queuedItem : QueuedRequest :=
  { url := "/api/episode/7", qCacheKey := "episode-/api/episode/7",
    forceRefresh := false, priorityNum := 1, timestamp := 999000 }

/-- State with one queued request, online and breaker closed. -/
def queuedState : APIState := { baseState with requestQueue := [queuedItem] }

/-- State whose localStorage API throws on every access. -/
def faultyDurableState : APIState := { baseState with localStore := faultyStore }

/-! ## Claim theorems -/

/-- C3 counterexample: the claim says a 4xx response is surfaced
immediately with no retry attempt scheduled; but a 404 response on a
first attempt (breaker closed, no stale entry) makes `handleLoadError`
schedule a retry with the base backoff delay. -/
theorem c3_client_error_retried_counterexample :
    (loadContentStep baseState reqEpisode 0 true
      (FetchOracle.response notFoundResponse)).2
      = LoadOutcome.failed (ErrOutcome.retryScheduled 1000) := by decide

/-- C3 amended: retry scheduling ignores the error class entirely.
Outside the timeout/network stale-shortcut, a failed attempt (4xx
included) is retried exactly when the attempt count is below
`maxRetries` and the incremented consecutive-failure count is below the
breaker threshold. -/
theorem c3_retry_ignores_error_class (s : APIState) (err : JsError)
    (retries : Nat) (key : String)
    (hshort : ¬(transientName err = true ∧ (find s.staleContentCache key).isSome = true)) :
    (handleLoadError s err retries key).2
      = ErrOutcome.retryScheduled (retryDelay * 2 ^ retries)
      ↔ (retries < maxRetries ∧ s.consecutiveFailures + 1 < circuitBreakerThreshold) := by
  unfold handleLoadError
  simp only []
  rw [if_neg hshort]
  by_cases hc : retries < maxRetries ∧ s.consecutiveFailures + 1 < circuitBreakerThreshold
  · rw [if_pos hc]
    simp [hc]
  · rw [if_neg hc]
    by_cases hstale : (find s.staleContentCache key).isSome = true
    · simp [hstale, hc]
      split <;> simp
    · simp [hstale, hc]
      split <;> simp

/-- C3 witness: instantiation at a 404 error on a clean state. -/
theorem c3_retry_ignores_error_class_witness :
    (handleLoadError baseState notFoundErr 0 (cacheKey reqEpisode)).2
      = ErrOutcome.retryScheduled (retryDelay * 2 ^ 0) :=
  (c3_retry_ignores_error_class baseState notFoundErr 0 (cacheKey reqEpisode)
    (by decide)).mpr (by decide)

/-- Shape of the breaker bookkeeping performed by `handleLoadError`:
the failure count always increments, and the health flag drops to
`false` exactly when neither the stale shortcut applies nor the
incremented count is still below the threshold. -/
lemma handleLoadError_breaker_fields (s : APIState) (err : JsError)
    (retries : Nat) (key : String) :
    (handleLoadError s err retries key).1.consecutiveFailures
      = s.consecutiveFailures + 1 ∧
    (handleLoadError s err retries key).1.apiHealthy
      = if (transientName err = true ∧ (find s.staleContentCache key).isSome = true)
            ∨ s.consecutiveFailures + 1 < circuitBreakerThreshold
        then s.apiHealthy else false := by
  by_cases h1 : transientName err = true ∧ (find s.staleContentCache key).isSome = true
  · simp [handleLoadError, h1]
  · by_cases h5 : s.consecutiveFailures + 1 < circuitBreakerThreshold
    · by_cases h2 : retries < maxRetries
      · simp [handleLoadError, h1, h2, h5]
      · by_cases h3 : (find s.staleContentCache key).isSome = true
        · have ht : ¬ transientName err = true := fun h => h1 ⟨h, h3⟩
          simp [handleLoadError, ht, h2, h3, h5,
            show ¬(circuitBreakerThreshold ≤ s.consecutiveFailures + 1) from by omega]
        · simp [handleLoadError, h1, h2, h3, h5,
            show ¬(circuitBreakerThreshold ≤ s.consecutiveFailures + 1) from by omega]
    · by_cases h3 : (find s.staleContentCache key).isSome = true
      · have ht : ¬ transientName err = true := fun h => h1 ⟨h, h3⟩
        simp [handleLoadError, ht, h3, h5,
          show circuitBreakerThreshold ≤ s.consecutiveFailures + 1 from by omega]
      · simp [handleLoadError, h1, h3, h5,
          show circuitBreakerThreshold ≤ s.consecutiveFailures + 1 from by omega]

/-- C2 counterexample: the claim says the breaker opens immediately when
the threshold-th consecutive failure is recorded; but the eighth
consecutive failure, arriving as a timeout with a stale memory-cache
entry present, takes the early stale-shortcut return and leaves
`apiHealthy` true — the breaker does not open at the threshold-th
failure. -/
theorem c2_threshold_failure_no_open_counterexample :
    sevenFailState.apiHealthy = true ∧
    (handleLoadError sevenFailState abortErr 0 (cacheKey reqEpisode)).1.consecutiveFailures
      = circuitBreakerThreshold ∧
    (handleLoadError sevenFailState abortErr 0 (cacheKey reqEpisode)).1.apiHealthy
      = true := by decide

/-- C2 amended: the breaker never opens before `circuitBreakerThreshold`
consecutive failures; a failure bringing the count to the threshold
opens it immediately unless it is a timeout/network failure served from
the stale-cache shortcut, which increments the count but leaves the
breaker state untouched. -/
theorem c2_breaker_threshold_transition :
    (∀ (s : APIState) (err : JsError) (retries : Nat) (key : String),
       s.apiHealthy = true →
       (handleLoadError s err retries key).1.apiHealthy = false →
       circuitBreakerThreshold ≤ s.consecutiveFailures + 1) ∧
    (∀ (s : APIState) (err : JsError) (retries : Nat) (key : String),
       circuitBreakerThreshold ≤ s.consecutiveFailures + 1 →
       ¬(transientName err = true ∧ (find s.staleContentCache key).isSome = true) →
       (handleLoadError s err retries key).1.apiHealthy = false) ∧
    (∀ (s : APIState) (err : JsError) (retries : Nat) (key : String),
       transientName err = true → (find s.staleContentCache key).isSome = true →
       (handleLoadError s err retries key).1.apiHealthy = s.apiHealthy ∧
       (handleLoadError s err retries key).1.consecutiveFailures
         = s.consecutiveFailures + 1) := by
  refine ⟨?_, ?_, ?_⟩
  · intro s err retries key hh hopen
    rcases handleLoadError_breaker_fields s err retries key with ⟨_, hfield⟩
    rw [hfield] at hopen
    by_contra hlt
    rw [if_pos (Or.inr (by omega))] at hopen
    rw [hh] at hopen
    exact Bool.noConfusion hopen
  · intro s err retries key hth hshort
    rcases handleLoadError_breaker_fields s err retries key with ⟨_, hfield⟩
    rw [hfield]
    rw [if_neg (fun hc => hc.elim hshort (by omega))]
  · intro s err retries key ht hs
    rcases handleLoadError_breaker_fields s err retries key with ⟨hcount, hfield⟩
    refine ⟨?_, hcount⟩
    rw [hfield, if_pos (Or.inl ⟨ht, hs⟩)]

/-- C2 witness: the three parts instantiated — a non-shortcut eighth
failure opens the breaker, and the shortcut eighth failure leaves it
closed while counting. -/
theorem c2_breaker_threshold_transition_witness :
    circuitBreakerThreshold ≤ { baseState with consecutiveFailures := 7 }.consecutiveFailures + 1 ∧
    (handleLoadError { baseState with consecutiveFailures := 7 } notFoundErr 0
      (cacheKey reqEpisode)).1.apiHealthy = false ∧
    ((handleLoadError sevenFailState abortErr 0 (cacheKey reqEpisode)).1.apiHealthy
       = sevenFailState.apiHealthy ∧
     (handleLoadError sevenFailState abortErr 0 (cacheKey reqEpisode)).1.consecutiveFailures
       = sevenFailState.consecutiveFailures + 1) :=
  ⟨c2_breaker_threshold_transition.1 { baseState with consecutiveFailures := 7 }
     notFoundErr 0 (cacheKey reqEpisode) (by decide) (by decide),
   c2_breaker_threshold_transition.2.1 { baseState with consecutiveFailures := 7 }
     notFoundErr 0 (cacheKey reqEpisode) (by decide) (by decide),
   c2_breaker_threshold_transition.2.2 sevenFailState abortErr 0 (cacheKey reqEpisode)
     (by decide) (by decide)⟩

/-- C4 (code bug evaluation): `isValidAPIResponse` correctly rejects an
HTTP 200 body that is an error envelope with no usable data/html (and a
body whose confidence score is below 0.3), but `loadContent`'s
surrounding catch swallows the validation throw and relabels the invalid
body as `{ html: content }`: the load completes as a success, the body
is rendered, and it is written to the memory cache, the sessionStorage
tier and (for this home key) the localStorage tier — contradicting both
the claim and the validator's stated purpose of avoiding caching broken
data. -/
theorem c4_invalid_response_cached_eval :
    isValidAPIResponse errEnvelope = false ∧
    isValidAPIResponse lowConfidenceJson = false ∧
    ((loadContentStep baseState reqHome 0 true (FetchOracle.response invalidOkResponse)).2
       = LoadOutcome.success (ParsedData.htmlOnly invalidOkResponse.text)) ∧
    (find (loadContentStep baseState reqHome 0 true
        (FetchOracle.response invalidOkResponse)).1.staleContentCache
        (cacheKey reqHome)).isSome = true ∧
    (find (loadContentStep baseState reqHome 0 true
        (FetchOracle.response invalidOkResponse)).1.session.items
        ("content_" ++ cacheKey reqHome)).isSome = true ∧
    (find (loadContentStep baseState reqHome 0 true
        (FetchOracle.response invalidOkResponse)).1.localStore.items
        ("content_" ++ cacheKey reqHome)).isSome = true := by
  refine ⟨by decide, ?_, by decide, by decide, by decide, by decide⟩
  simp only [isValidAPIResponse, lowConfidenceJson, htmlTruthy, Bool.false_and,
    Bool.if_false_left]
  norm_num

/-- C8 (code bug evaluation): `processRequestQueue` dispatches a queued
request through `this.executeRequest(...)`, but no method of that name
is defined anywhere on the class, so dequeuing throws a `TypeError`
after the first shift and the dequeued request is never rendered (its
element still shows only the loading skeleton that was added when the
request was queued at the concurrency limit). -/
theorem c8_queue_dispatch_throws_eval :
    definedMethods.contains "executeRequest" = false ∧
    (processRequestQueue queuedState).2
      = QueueStepOutcome.thrownTypeError "executeRequest" ∧
    (processRequestQueue queuedState).1.dom = queuedState.dom ∧
    ((loadContentStep atLimitState reqEpisode 0 true (FetchOracle.reject abortErr)).2
       = LoadOutcome.queued) ∧
    (loadContentStep atLimitState reqEpisode 0 true (FetchOracle.reject abortErr)).1.dom
      = [RenderEvent.loadingSkeleton (cacheKey reqEpisode)] := by decide

/-- C1 counterexample: the claim says that once the cooldown elapses
exactly one concurrent trial request is permitted while all others are
served from cache or an unavailable message; but after the reset timer
fires, two concurrent requests (the second issued while the first is
still in flight) both proceed to the network. -/
theorem c1_no_half_open_counterexample :
    networkAttemptsOfOutcome
      (loadContentStep (breakerStateAt openState 500000 530000) reqEpisode 0 true
        (FetchOracle.reject abortErr)).2 = 1 ∧
    networkAttemptsOfOutcome
      (loadContentStep
        { breakerStateAt openState 500000 530000 with concurrentRequests := 1 }
        reqHome 0 true (FetchOracle.reject abortErr)).2 = 1 := by decide

/-- C1 amended: while the breaker is open, until
`circuitBreakerResetTime` has elapsed every load request takes the
circuit-open path (stale cache or unavailable message) and makes no
network attempt; once the reset timer fires the breaker is fully reset
(healthy, zero failures) — there is no half-open single-trial phase. -/
theorem c1_breaker_cooldown_blocks_then_full_reset :
    (∀ (sOpen : APIState) (req : LoadRequest) (retries : Nat) (fr : Bool)
       (oracle : FetchOracle) (openedAt t : Nat),
       sOpen.apiHealthy = false →
       circuitBreakerThreshold ≤ sOpen.consecutiveFailures →
       t < openedAt + circuitBreakerResetTime →
       req.url.isEmpty = false →
       (loadContentStep (breakerStateAt sOpen openedAt t) req retries fr oracle).2
         = LoadOutcome.circuitOpen ∧
       networkAttemptsOfOutcome
         (loadContentStep (breakerStateAt sOpen openedAt t) req retries fr oracle).2
         = 0) ∧
    (∀ (sOpen : APIState) (openedAt t : Nat),
       openedAt + circuitBreakerResetTime ≤ t →
       (breakerStateAt sOpen openedAt t).apiHealthy = true ∧
       (breakerStateAt sOpen openedAt t).consecutiveFailures = 0) := by
  constructor
  · intro sOpen req retries fr oracle openedAt t h1 h2 h3 h4
    have hb : breakerStateAt sOpen openedAt t = sOpen := by
      rw [breakerStateAt, if_pos h3]
    rw [hb]
    unfold loadContentStep
    rw [if_neg (by simp [h4])]
    rw [if_pos ⟨h1, h2⟩]
    exact ⟨rfl, rfl⟩
  · intro sOpen openedAt t h
    rw [breakerStateAt, if_neg (by omega)]
    exact ⟨rfl, rfl⟩

/-- C1 witness: a request one millisecond before the reset is blocked
without a network attempt; at the reset instant the breaker state is
fully reset. -/
theorem c1_breaker_cooldown_witness :
    ((loadContentStep (breakerStateAt openState 500000 500001) reqEpisode 0 true
        (FetchOracle.reject abortErr)).2 = LoadOutcome.circuitOpen ∧
     networkAttemptsOfOutcome
       (loadContentStep (breakerStateAt openState 500000 500001) reqEpisode 0 true
         (FetchOracle.reject abortErr)).2 = 0) ∧
    ((breakerStateAt openState 500000 530000).apiHealthy = true ∧
     (breakerStateAt openState 500000 530000).consecutiveFailures = 0) :=
  ⟨c1_breaker_cooldown_blocks_then_full_reset.1 openState reqEpisode 0 true
     (FetchOracle.reject abortErr) 500000 500001 (by decide) (by decide) (by decide)
     (by decide),
   c1_breaker_cooldown_blocks_then_full_reset.2 openState 500000 530000 (by decide)⟩

/-- C9 confirmed: a background revalidation only updates the cache
fields (memory cache and the two browser tiers); every other component
of the state — in particular the rendered DOM log — is unchanged,
whether the refresh is skipped, fails, or succeeds. -/
theorem c9_background_refresh_frame :
    ∀ (s : APIState) (key : String) (res : FetchOracle),
      (refreshContentInBackground s key res).dom = s.dom ∧
      (refreshContentInBackground s key res).requestQueue = s.requestQueue ∧
      (refreshContentInBackground s key res).concurrentRequests = s.concurrentRequests ∧
      (refreshContentInBackground s key res).apiHealthy = s.apiHealthy ∧
      (refreshContentInBackground s key res).consecutiveFailures = s.consecutiveFailures ∧
      (refreshContentInBackground s key res).offlineMode = s.offlineMode ∧
      (refreshContentInBackground s key res).networkStatus = s.networkStatus ∧
      (refreshContentInBackground s key res).now = s.now := by
  intro s key res
  by_cases hg : s.offlineMode = true ∨ s.apiHealthy = false
  · simp [refreshContentInBackground, hg]
  · cases res with
    | reject e => simp [refreshContentInBackground, hg]
    | response r =>
      by_cases hok : httpOk r.status = true
      · simp [refreshContentInBackground, hg, hok]
      · simp [refreshContentInBackground, hg, hok]

/-- C10 counterexample: the claim says that under any storage fault
`saveToLocalCache` completes as a no-op; but when sessionStorage works
and only the localStorage API throws, saving a `home` entry writes the
session tier before the durable write faults, so the save is not a
no-op. -/
theorem c10_partial_write_counterexample :
    faultyDurableState.localStore.faulty = true ∧
    (applySave faultyDurableState "home-/api/home" oldEntry).session
      ≠ faultyDurableState.session := by decide

/-- C10 amended: the accessors never propagate a storage exception.
`getFromBrowserCache` returns null when the consulted (session) tier's
read throws or its stored JSON is malformed; `saveToLocalCache` stops at
the first faulting write — a session-tier fault makes it a complete
no-op, and a durable-tier fault leaves the durable tier unchanged (the
already-completed session write persists). -/
theorem c10_accessor_fault_behavior :
    (∀ (s : APIState) (key : String),
       s.sessionStorageEnabled = true → s.session.faulty = true →
       getFromBrowserCache s key = none) ∧
    (∀ (s : APIState) (key str : String),
       s.sessionStorageEnabled = true → s.session.faulty = false →
       find s.session.items ("content_" ++ key) = some (StoredVal.malformed str) →
       getFromBrowserCache s key = none) ∧
    (∀ (s : APIState) (key : String) (data : CacheEntry),
       s.sessionStorageEnabled = true → s.session.faulty = true →
       applySave s key data = s) ∧
    (∀ (s : APIState) (key : String) (data : CacheEntry),
       s.localStore.faulty = true →
       (applySave s key data).localStore = s.localStore) := by
  refine ⟨?_, ?_, ?_, ?_⟩
  · intro s key h1 h2
    simp [getFromBrowserCache, getFromBrowserCacheE, readTier, BStore.getItem, h1, h2]
  · intro s key str h1 h2 h3
    simp [getFromBrowserCache, getFromBrowserCacheE, readTier, BStore.getItem,
      parseStored, h1, h2, h3]
  · intro s key data h1 h2
    have hst : saveToLocalCacheStores s key data = (s.session, s.localStore) := by
      simp [saveToLocalCacheStores, BStore.setItem, h1, h2]
    simp [applySave, hst]
  · intro s key data h
    by_cases h1 : s.sessionStorageEnabled = true
    · by_cases hf : s.session.faulty = true
      · simp [applySave, saveToLocalCacheStores, BStore.setItem, h1, hf]
      · by_cases h2 : (s.localStorageEnabled && isImportantKey key) = true
        · simp [applySave, saveToLocalCacheStores, BStore.setItem, h1, hf, h2, h]
        · simp [applySave, saveToLocalCacheStores, BStore.setItem, h1, hf, h2]
    · by_cases h2 : (s.localStorageEnabled && isImportantKey key) = true
      · simp [applySave, saveToLocalCacheStores, BStore.setItem, h1, h2, h]
      · simp [applySave, saveToLocalCacheStores, BStore.setItem, h1, h2]

/-- State whose sessionStorage API throws on every access. -/
def faultySessionState : APIState := { baseState with session := faultyStore }

/-- State whose sessionStorage holds a malformed string under the
episode key. -/
def malformedSessionState : APIState :=
  { baseState with
      session := { items := [("content_" ++ cacheKey reqEpisode,
                               StoredVal.malformed "not json")],
                   faulty := false } }

/-- C10 witness: the four amended clauses at concrete states. -/
theorem c10_accessor_fault_behavior_witness :
    getFromBrowserCache faultySessionState (cacheKey reqEpisode) = none ∧
    getFromBrowserCache malformedSessionState (cacheKey reqEpisode) = none ∧
    applySave faultySessionState (cacheKey reqEpisode) oldEntry = faultySessionState ∧
    (applySave faultyDurableState "home-/api/home" e1Entry).localStore
      = faultyDurableState.localStore :=
  ⟨c10_accessor_fault_behavior.1 faultySessionState (cacheKey reqEpisode)
     (by decide) (by decide),
   c10_accessor_fault_behavior.2.1 malformedSessionState (cacheKey reqEpisode)
     "not json" (by decide) (by decide) (by decide),
   c10_accessor_fault_behavior.2.2.1 faultySessionState (cacheKey reqEpisode) oldEntry
     (by decide) (by decide),
   c10_accessor_fault_behavior.2.2.2 faultyDurableState "home-/api/home" e1Entry
     (by decide)⟩

/-- A low-priority request queued before a normal-priority one. -/
def lowQueuedItem : QueuedRequest :=
  { url := "/api/rec/1", qCacheKey := "rec-/api/rec/1", forceRefresh := false,
    priorityNum := 0, timestamp := 1 }

def normalQueuedItem : QueuedRequest :=
  { url := "/api/episode/2", qCacheKey := "episode-/api/episode/2",
    forceRefresh := false, priorityNum := 1, timestamp := 2 }

/-- State with a low-priority item ahead of a normal-priority item. -/
def orderedQueueState : APIState :=
  { baseState with requestQueue := [lowQueuedItem, normalQueuedItem] }

/-- C5 counterexample: at the concurrency limit (8 in flight) a
high-priority request is not queued — it proceeds to the network, so
more than `maxConcurrent` requests are in flight, contradicting
"exactly M in flight" and "high may bypass only while under the limit";
and dequeuing takes the queue head in arrival order, removing a
low-priority item while a normal-priority item waits, contradicting
priority-then-FIFO order. -/
theorem c5_high_priority_bypass_counterexample :
    atLimitState.concurrentRequests = maxConcurrentRequests ∧
    ((loadContentStep atLimitState reqHighP 0 true (FetchOracle.reject abortErr)).2
       = LoadOutcome.failed (ErrOutcome.retryScheduled 1000)) ∧
    networkAttemptsOfOutcome
      (loadContentStep atLimitState reqHighP 0 true (FetchOracle.reject abortErr)).2
      = 1 ∧
    (processRequestQueue orderedQueueState).1.requestQueue = [normalQueuedItem] := by
  decide

/-- C5 amended: a load request is queued iff the in-flight counter has
reached `maxConcurrentRequests` and its priority is not high (high
priority always proceeds, so in-flight can exceed the limit); a queued
request is appended at the tail with its priority recorded but the
dequeue path removes items from the head in arrival order regardless of
that priority. -/
theorem c5_scheduler_queue_behavior :
    (∀ (s : APIState) (req : LoadRequest) (retries : Nat) (oracle : FetchOracle),
       req.url.isEmpty = false → s.apiHealthy = true → s.offlineMode = false →
       ((loadContentStep s req retries true oracle).2 = LoadOutcome.queued
         ↔ (maxConcurrentRequests ≤ s.concurrentRequests ∧
            req.priority ≠ Priority.high))) ∧
    (∀ (s : APIState) (req : LoadRequest) (retries : Nat) (oracle : FetchOracle),
       req.url.isEmpty = false → s.apiHealthy = true → s.offlineMode = false →
       maxConcurrentRequests ≤ s.concurrentRequests → req.priority ≠ Priority.high →
       (loadContentStep s req retries true oracle).1.requestQueue
         = s.requestQueue ++
           [{ url := req.url, qCacheKey := cacheKey req, forceRefresh := true,
              priorityNum := if req.priority = Priority.low then 0 else 1,
              timestamp := s.now }]) ∧
    (∀ (s : APIState),
       s.requestQueue ≠ [] → s.networkStatus = true → s.apiHealthy = true →
       (processRequestQueue s).1.requestQueue = s.requestQueue.drop 1) := by
  refine ⟨?_, ?_, ?_⟩
  · intro s req retries oracle hurl hh hoff
    unfold loadContentStep
    rw [if_neg (by simp [hurl])]
    rw [if_neg (by simp [hh])]
    rw [if_neg (by simp [hoff])]
    simp only [Bool.not_true, Bool.false_and, Bool.false_eq_true, if_false]
    by_cases hq : maxConcurrentRequests ≤ s.concurrentRequests ∧
        req.priority ≠ Priority.high
    · rw [if_pos hq]
      simp [hq]
    · rw [if_neg hq]
      cases oracle with
      | reject e => simp [hq]
      | response r =>
        by_cases hok : httpOk r.status = true
        · simp [hok, hq]
        · simp [hok, hq]
  · intro s req retries oracle hurl hh hoff hc hp
    unfold loadContentStep
    rw [if_neg (by simp [hurl])]
    rw [if_neg (by simp [hh])]
    rw [if_neg (by simp [hoff])]
    simp only [Bool.not_true, Bool.false_and, Bool.false_eq_true, if_false]
    rw [if_pos ⟨hc, hp⟩]
  · intro s hq hn hh
    have he : s.requestQueue.isEmpty = false := by
      simpa [List.isEmpty_iff] using hq
    simp [processRequestQueue, he, hn, hh,
      show ¬("executeRequest" ∈ definedMethods) from by decide]

/-- C5 witness: the three amended clauses at concrete states — a
normal-priority request at the limit is queued at the tail; one
queue-processing pass removes the head. -/
theorem c5_scheduler_queue_behavior_witness :
    ((loadContentStep atLimitState reqEpisode 0 true
        (FetchOracle.reject abortErr)).2 = LoadOutcome.queued) ∧
    ((loadContentStep atLimitState reqEpisode 0 true
        (FetchOracle.reject abortErr)).1.requestQueue
       = atLimitState.requestQueue ++
         [{ url := reqEpisode.url, qCacheKey := cacheKey reqEpisode,
            forceRefresh := true, priorityNum := 1,
            timestamp := atLimitState.now }]) ∧
    (processRequestQueue queuedState).1.requestQueue
      = queuedState.requestQueue.drop 1 :=
  ⟨(c5_scheduler_queue_behavior.1 atLimitState reqEpisode 0
      (FetchOracle.reject abortErr) (by decide) (by decide) (by decide)).mpr
      ⟨by decide, by decide⟩,
   by
     have h := c5_scheduler_queue_behavior.2.1 atLimitState reqEpisode 0
       (FetchOracle.reject abortErr) (by decide) (by decide) (by decide)
       (by decide) (by decide)
     simpa using h,
   c5_scheduler_queue_behavior.2.2 queuedState (by decide) (by decide) (by decide)⟩

/-- Session component written by `saveToLocalCache` when the session
tier is enabled and healthy, regardless of the durable branch. -/
lemma saveToLocalCacheStores_session_write (s : APIState) (key : String)
    (data : CacheEntry) (h1 : s.sessionStorageEnabled = true)
    (hf : s.session.faulty = false) :
    (saveToLocalCacheStores s key data).1
      = { items := ("content_" ++ key, StoredVal.entry data) :: s.session.items,
          faulty := false } := by
  by_cases h2 : (s.localStorageEnabled && isImportantKey key) = true
  · by_cases h3 : s.localStore.faulty = true
    · simp [saveToLocalCacheStores, BStore.setItem, h1, hf, h2, h3]
    · simp [saveToLocalCacheStores, BStore.setItem, h1, hf, h2, h3]
  · simp [saveToLocalCacheStores, BStore.setItem, h1, hf, h2]

/-- Durable component written by `saveToLocalCache` for an important
key when sessionStorage is disabled and localStorage healthy. -/
lemma saveToLocalCacheStores_local_write (s : APIState) (key : String)
    (data : CacheEntry) (h1 : s.sessionStorageEnabled = false)
    (h2 : s.localStorageEnabled = true) (hf : s.localStore.faulty = false)
    (himp : isImportantKey key = true) :
    (saveToLocalCacheStores s key data).2
      = { items := ("content_" ++ key, StoredVal.entry data) :: s.localStore.items,
          faulty := false } ∧
    (saveToLocalCacheStores s key data).1 = s.session := by
  simp [saveToLocalCacheStores, BStore.setItem, h1, h2, hf, himp]

/-- C6 counterexample: the claim says last-write-wins holds in the
durable (localStorage) tier for every key; but `saveToLocalCache` never
writes a key that contains neither `home` nor `detail` to localStorage,
so with the session tier unavailable two saves leave the durable tier
empty and the read misses instead of returning the second entry. -/
theorem c6_durable_tier_counterexample :
    isImportantKey "search-/api/q" = false ∧
    getFromBrowserCache
      (applySave (applySave noSessionState "search-/api/q" e1Entry)
        "search-/api/q" e2Entry) "search-/api/q" = none ∧
    (applySave (applySave noSessionState "search-/api/q" e1Entry)
      "search-/api/q" e2Entry).localStore.items = [] := by decide

/-- C6 amended: last-write-wins holds in the in-memory tier for all
keys, in the sessionStorage tier (when enabled and healthy) for all
keys, and in the durable localStorage tier only for keys containing
`home` or `detail`; keys outside that set are never written to the
durable tier at all. -/
theorem c6_last_write_wins_per_tier :
    (∀ (m : List (String × CacheEntry)) (k : String) (e1 e2 : CacheEntry),
       find (staleCacheSet (staleCacheSet m k e1) k e2) k = some e2) ∧
    (∀ (s : APIState) (k : String) (e1 e2 : CacheEntry),
       s.sessionStorageEnabled = true → s.session.faulty = false →
       getFromBrowserCache (applySave (applySave s k e1) k e2) k = some e2) ∧
    (∀ (s : APIState) (k : String) (e1 e2 : CacheEntry),
       s.sessionStorageEnabled = false → s.localStorageEnabled = true →
       s.localStore.faulty = false → isImportantKey k = true →
       getFromBrowserCache (applySave (applySave s k e1) k e2) k = some e2) ∧
    (∀ (s : APIState) (k : String) (e : CacheEntry),
       isImportantKey k = false →
       (applySave s k e).localStore = s.localStore) := by
  refine ⟨?_, ?_, ?_, ?_⟩
  · intro m k e1 e2
    simp [staleCacheSet, find]
  · intro s k e1 e2 h1 hf
    have hs1 : (applySave s k e1).session
        = { items := ("content_" ++ k, StoredVal.entry e1) :: s.session.items,
            faulty := false } :=
      saveToLocalCacheStores_session_write s k e1 h1 hf
    have h1' : (applySave s k e1).sessionStorageEnabled = true := h1
    have hf' : (applySave s k e1).session.faulty = false := by rw [hs1]
    have hs2 : (applySave (applySave s k e1) k e2).session
        = { items := ("content_" ++ k, StoredVal.entry e2)
              :: (applySave s k e1).session.items,
            faulty := false } :=
      saveToLocalCacheStores_session_write (applySave s k e1) k e2 h1' hf'
    have h1'' : (applySave (applySave s k e1) k e2).sessionStorageEnabled = true := h1
    simp [getFromBrowserCache, getFromBrowserCacheE, readTier, BStore.getItem,
      parseStored, find, h1'', hs2]
  · intro s k e1 e2 h1 h2 hf himp
    rcases saveToLocalCacheStores_local_write s k e1 h1 h2 hf himp with ⟨hl1, _⟩
    have h1' : (applySave s k e1).sessionStorageEnabled = false := h1
    have h2' : (applySave s k e1).localStorageEnabled = true := h2
    have hf' : (applySave s k e1).localStore.faulty = false := by
      show (saveToLocalCacheStores s k e1).2.faulty = false
      rw [hl1]
    rcases saveToLocalCacheStores_local_write (applySave s k e1) k e2 h1' h2' hf'
      himp with ⟨hl2, _⟩
    have hl2' : (applySave (applySave s k e1) k e2).localStore.items
        = ("content_" ++ k, StoredVal.entry e2)
            :: (applySave s k e1).localStore.items := by
      show (saveToLocalCacheStores (applySave s k e1) k e2).2.items = _
      rw [hl2]
    have hlf : (applySave (applySave s k e1) k e2).localStore.faulty = false := by
      show (saveToLocalCacheStores (applySave s k e1) k e2).2.faulty = false
      rw [hl2]
    have h1'' : (applySave (applySave s k e1) k e2).sessionStorageEnabled = false := h1
    have h2'' : (applySave (applySave s k e1) k e2).localStorageEnabled = true := h2
    simp [getFromBrowserCache, getFromBrowserCacheE, readTier, BStore.getItem,
      parseStored, find, h1'', h2'', hl2', hlf]
  · intro s k e himp
    by_cases h1 : s.sessionStorageEnabled = true
    · by_cases hf : s.session.faulty = true
      · simp [applySave, saveToLocalCacheStores, BStore.setItem, h1, hf]
      · simp [applySave, saveToLocalCacheStores, BStore.setItem, h1, hf, himp]
    · simp [applySave, saveToLocalCacheStores, BStore.setItem, h1, himp]

/-- C6 witness: the four amended clauses at concrete inputs. -/
theorem c6_last_write_wins_per_tier_witness :
    find (staleCacheSet (staleCacheSet [] "episode-/e" e1Entry) "episode-/e" e2Entry)
      "episode-/e" = some e2Entry ∧
    getFromBrowserCache (applySave (applySave baseState "episode-/e" e1Entry)
      "episode-/e" e2Entry) "episode-/e" = some e2Entry ∧
    getFromBrowserCache (applySave (applySave noSessionState "home-/h" e1Entry)
      "home-/h" e2Entry) "home-/h" = some e2Entry ∧
    (applySave baseState "search-/q" e1Entry).localStore = baseState.localStore :=
  ⟨c6_last_write_wins_per_tier.1 [] "episode-/e" e1Entry e2Entry,
   c6_last_write_wins_per_tier.2.1 baseState "episode-/e" e1Entry e2Entry
     (by decide) (by decide),
   c6_last_write_wins_per_tier.2.2.1 noSessionState "home-/h" e1Entry e2Entry
     (by decide) (by decide) (by decide) (by decide),
   c6_last_write_wins_per_tier.2.2.2 baseState "search-/q" e1Entry (by decide)⟩

/-- C7 counterexample: the claim says a repeated load with a fresh
cached entry makes no network attempt at all; but a fresh entry that is
three minutes old (inside the 5-minute reuse window, past the 2-minute
refresh window) triggers a background revalidation fetch — one network
attempt. -/
theorem c7_background_fetch_counterexample :
    getFromBrowserCache (withSessionEntry agingEntry) (cacheKey reqEpisode)
      = some agingEntry ∧
    (withSessionEntry agingEntry).now - agingEntry.timestamp < 5 * 60 * 1000 ∧
    networkAttemptsOfOutcome
      (loadContentStep (withSessionEntry agingEntry) reqEpisode 0 false
        (FetchOracle.reject abortErr)).2 = 1 := by decide

/-- C7 amended: with a fresh (under 5 minutes old) browser-cache entry,
a repeated non-forced load renders the cached value and skips the
blocking round trip, issuing a background revalidation fetch exactly
when `shouldRefreshInBackground` fires; when the entry is younger than
the 2-minute refresh window no network attempt is made at all. -/
theorem c7_fresh_cache_no_blocking_fetch :
    ∀ (s : APIState) (req : LoadRequest) (retries : Nat) (oracle : FetchOracle)
      (cd : CacheEntry),
      req.url.isEmpty = false → s.apiHealthy = true → s.offlineMode = false →
      (s.sessionStorageEnabled = true ∨ s.localStorageEnabled = true) →
      getFromBrowserCache s (cacheKey req) = some cd →
      s.now - cd.timestamp < 5 * 60 * 1000 →
      ((loadContentStep s req retries false oracle).2
         = LoadOutcome.servedFresh cd (shouldRefreshInBackground s cd)) ∧
      (cd.timestamp ≠ 0 → s.now - cd.timestamp ≤ 2 * 60 * 1000 →
        networkAttemptsOfOutcome (loadContentStep s req retries false oracle).2
          = 0) := by
  intro s req retries oracle cd hurl hh hoff hen hget hage
  have hshould : shouldUseBrowserCache s (cacheKey req) = true := by
    unfold shouldUseBrowserCache
    rcases hen with he | he
    · rw [if_neg (by simp [he])]
      rw [hget]
      simp [hage]
    · rw [if_neg (by simp [he])]
      rw [hget]
      simp [hage]
  have hstep : (loadContentStep s req retries false oracle).2
      = LoadOutcome.servedFresh cd (shouldRefreshInBackground s cd) := by
    unfold loadContentStep
    rw [if_neg (by simp [hurl])]
    rw [if_neg (by simp [hh])]
    rw [if_neg (by simp [hoff])]
    simp [hshould, hget, hoff, hh]
  refine ⟨hstep, ?_⟩
  intro hts hage2
  rw [hstep]
  have hbg : shouldRefreshInBackground s cd = false := by
    simp [shouldRefreshInBackground, hts]
    omega
  rw [hbg]
  rfl

/-- C7 witness: a one-minute-old entry is served from cache with zero
network attempts. -/
theorem c7_fresh_cache_no_blocking_fetch_witness :
    ((loadContentStep (withSessionEntry youngEntry) reqEpisode 0 false
        (FetchOracle.reject abortErr)).2
       = LoadOutcome.servedFresh youngEntry
           (shouldRefreshInBackground (withSessionEntry youngEntry) youngEntry)) ∧
    networkAttemptsOfOutcome
      (loadContentStep (withSessionEntry youngEntry) reqEpisode 0 false
        (FetchOracle.reject abortErr)).2 = 0 :=
  ⟨(c7_fresh_cache_no_blocking_fetch (withSessionEntry youngEntry) reqEpisode 0
      (FetchOracle.reject abortErr) youngEntry (by decide) (by decide) (by decide)
      (Or.inl (by decide)) (by decide) (by decide)).1,
   (c7_fresh_cache_no_blocking_fetch (withSessionEntry youngEntry) reqEpisode 0
      (FetchOracle.reject abortErr) youngEntry (by decide) (by decide) (by decide)
      (Or.inl (by decide)) (by decide) (by decide)).2 (by decide) (by decide)⟩

end KortekStream
